import Mathlib

/-!
Shallow embedding of the OIDC device-flow authentication and token-lifecycle
manager of `src/src/evergreen_mcp/oidc_auth.py` (class `OIDCAuthManager`).

Modelling conventions:
* Machine state (the manager's mutable attributes plus the kanopy token file,
  which this module both writes and reads) is the structure `OIDCAuthManager`;
  each Python method becomes a Lean function threading that state explicitly.
* External effects (clock, the `jwt` library's verify/decode outcomes, HTTP
  responses of the OIDC provider, the read-only evergreen config files, and
  whether a filesystem write raises) are an oracle structure `Env`.
* JSON objects are modelled with optional fields: `none` means the key is
  absent; a JWT decode (or signature verification) that raises inside the
  `jwt` library is `none` from the oracle.
* Python truthiness on optional strings (`None` and `""` are falsy) is
  `pyTruthyStr`; Python `a or b` on such values is `pyOrStr`.
* Raised exceptions that escape a method (only metadata-discovery failures
  escape the async methods) are `Except.error`; every exception the Python
  code catches and converts to `None`/`False` is modelled by the
  corresponding `none`/`false` result.
-/

namespace EvergreenOidc

/-- Python string truthiness for an optional string: `None` and `""` are falsy. -/
def pyTruthyStr : Option String → Bool
  | none => false
  | some s => !(s == "")

/-- Python `a or b` for optional strings (falls through on `None` and `""`). -/
def pyOrStr (a b : Option String) : Option String :=
  if pyTruthyStr a then a else b

/-- Python `dict.get(key, default)`: the default is used only when the key is
absent (`none`), never when it is present. -/
def dictGetD (present : Option String) (default : Option String) : Option String :=
  match present with
  | some r => some r
  | none => default

/-- A `scope` claim value: may be a space-separated string, a list, or some
other JSON type (the code logs a warning on the latter). -/
inductive ScopeVal where
  | str (s : String)
  | lst (l : List String)
  | other
  deriving DecidableEq, Repr

/-- Decoded JWT claims: the fields `oidc_auth.py` reads. An absent claim is
`none`; `groups` defaults to `[]` exactly as `claims.get("groups", [])`. -/
structure JwtClaims where
  exp : Option Int := none
  preferred_username : Option String := none
  email : Option String := none
  name : Option String := none
  sub : Option String := none
  groups : List String := []
  scope : Option ScopeVal := none
  deriving DecidableEq, Repr

/-- The dictionary `_extract_user_info` builds from the claims. -/
structure UserInfo where
  username : Option String := none
  email : Option String := none
  name : Option String := none
  groups : List String := []
  exp : Option Int := none
  deriving DecidableEq, Repr

/-- Body of a successful (HTTP 200) token-endpoint response, and equally the
JSON object `_save_token` persists and the probes read back (`token_data`). -/
structure TokenData where
  access_token : Option String := none
  refresh_token : Option String := none
  deriving DecidableEq, Repr

/-- State of a JSON token file on disk: absent, unparseable (read or JSON
errors are caught and treated as absence), or parsed content. -/
inductive FileState where
  | missing
  | corrupt
  | parsed (d : TokenData)
  deriving DecidableEq, Repr

/-- State of `~/.evergreen.yml`: absent, unparseable YAML, or parsed with an
optional `oauth.token_file_path` entry. -/
inductive YamlConfigState where
  | missing
  | corrupt
  | parsed (token_file_path : Option String)
  deriving DecidableEq, Repr

/-- Fields consumed from the OIDC discovery document. -/
structure ProviderMetadata where
  device_authorization_endpoint : Option String := none
  token_endpoint : Option String := none
  jwks_uri : Option String := none
  deriving DecidableEq, Repr

/-- Body of the device-authorization response. `expires_in` is part of the
response JSON; `device_flow_auth` never reads it. -/
structure DeviceData where
  verification_uri : Option String := none
  verification_uri_complete : Option String := none
  user_code : Option String := none
  device_code : Option String := none
  interval : Option Int := none
  expires_in : Option Int := none
  deriving DecidableEq, Repr

/-- One token-endpoint response during device-flow polling:
HTTP 200 with a body, a non-200 status whose JSON body has an optional
`error` field, a non-200 status whose body fails to parse as JSON
(`resp.json()` raises), or a transport error (the request itself raises). -/
inductive PollResp where
  | ok (td : TokenData)
  | errBody (status : Nat) (error : Option String)
  | badBody (status : Nat)
  | netError
  deriving DecidableEq, Repr

/-- The only exception that escapes the manager's async methods: a
metadata-discovery failure (`initialize_endpoints` re-raises). -/
inductive OidcError where
  | discovery
  deriving DecidableEq, Repr

/-- External world oracle: clock, `jwt` library outcomes, provider responses,
read-only config files, and whether the token-file write raises `OSError`. -/
structure Env where
  now : Int
  jwtVerify : String → Option JwtClaims
  jwtNoVerify : String → Option JwtClaims
  discovery : Option ProviderMetadata := none
  evergreenConfig : YamlConfigState := .missing
  fileAt : String → FileState := fun _ => .missing
  refreshResp : Option TokenData := none
  deviceAuthResp : Option DeviceData := none
  pollResponses : List PollResp := []
  saveRaises : Bool := false

/-- The manager's mutable attributes, plus the kanopy token file (the one
piece of filesystem state this module both writes and reads). -/
structure OIDCAuthManager where
  accessToken : Option String := none
  refreshToken : Option String := none
  userInfo : Option UserInfo := none
  jwksClient : Bool := false
  tokenEndpoint : Option String := none
  deviceAuthEndpoint : Option String := none
  kanopyFile : FileState := .missing
  deriving DecidableEq, Repr

/-- Model of `_verify_and_decode_token`: with `verify` and a JWKS client, the `jwt`
library verifies and decodes (any raised error is `none`); with `verify` but
no JWKS client, the method logs a warning and returns `None` (no decoding);
with `verify=False` it decodes without signature verification. -/
def verify_and_decode_token (env : Env) (m : OIDCAuthManager)
    (token : String) (verify : Bool) : Option JwtClaims :=
  if verify && m.jwksClient then env.jwtVerify token
  else if verify then none
  else env.jwtNoVerify token

/-- Lift of `_verify_and_decode_token` to an optional token: passing `None`
into the `jwt` library raises, which the method catches, yielding `None`. -/
def verify_and_decode_opt (env : Env) (m : OIDCAuthManager)
    (token : Option String) : Option JwtClaims :=
  match token with
  | none => none
  | some t => verify_and_decode_token env m t true

/-- Model of `_check_token_expiry`: `(is_valid, seconds_remaining)` with
`remaining = claims.get("exp", 0) - time.time()` and valid iff
`remaining > 60`; `(False, 0)` when decoding fails. -/
def check_token_expiry (env : Env) (m : OIDCAuthManager) (token : String) :
    Bool × Int :=
  match verify_and_decode_token env m token true with
  | none => (false, 0)
  | some claims =>
    let remaining := claims.exp.getD 0 - env.now
    (decide (remaining > 60), remaining)

/-- Model of `_extract_user_info`: the identity dictionary, or `none` for the empty
dict `{}` when decoding fails. -/
def extract_user_info (env : Env) (m : OIDCAuthManager) (token : String) :
    Option UserInfo :=
  match verify_and_decode_token env m token true with
  | none => none
  | some c =>
    some { username := pyOrStr c.preferred_username (pyOrStr c.email c.sub),
           email := c.email, name := c.name, groups := c.groups, exp := c.exp }

/-- Lift of `_extract_user_info` to an optional token (decoding `None`
raises inside the library and is caught, yielding the empty dict). -/
def extract_user_info_opt (env : Env) (m : OIDCAuthManager)
    (token : Option String) : Option UserInfo :=
  match token with
  | none => none
  | some t => extract_user_info env m t

/-- Model of `_validate_token_scopes`: advisory only — every branch of the Python
function returns `True` (missing/limited scopes are merely logged). -/
def validate_token_scopes (env : Env) (m : OIDCAuthManager)
    (token : Option String) : Bool :=
  match verify_and_decode_opt env m token with
  | none => true
  | some claims =>
    match claims.scope with
    | none => true
    | some (.str _) => true
    | some (.lst _) => true
    | some .other => true

/-- Model of `initialize_endpoints`: on discovery failure the exception is logged and
re-raised; on success the endpoints are adopted and the JWKS client is
created only when the metadata carries a (truthy) `jwks_uri`. -/
def initialize_endpoints (env : Env) (m : OIDCAuthManager) :
    Except OidcError OIDCAuthManager :=
  match env.discovery with
  | none => .error .discovery
  | some md =>
    .ok { m with deviceAuthEndpoint := md.device_authorization_endpoint,
                 tokenEndpoint := md.token_endpoint,
                 jwksClient := if pyTruthyStr md.jwks_uri then true else m.jwksClient }

/-- Model of `_save_token`: atomic write of `token_data` to the kanopy token file;
`none` when the write raises `OSError` (the temp file is cleaned up and the
original file is left unchanged, and the exception propagates). -/
def save_token (env : Env) (m : OIDCAuthManager) (tokenData : TokenData) :
    Option OIDCAuthManager :=
  if env.saveRaises then none
  else some { m with kanopyFile := .parsed tokenData }

/-- Model of `check_kanopy_token`: probe `~/.kanopy/token-oidclogin.json`. After a
successful parse, `self._refresh_token = data.get("refresh_token")` runs
unconditionally; the access token is returned only if truthy, unexpired and
(advisorily) scope-valid. Read or parse errors are caught, returning `None`
with the state untouched. -/
def check_kanopy_token (env : Env) (m : OIDCAuthManager) :
    Option String × OIDCAuthManager :=
  match m.kanopyFile with
  | .missing => (none, m)
  | .corrupt => (none, m)
  | .parsed d =>
    let m1 := { m with refreshToken := d.refresh_token }
    if pyTruthyStr d.access_token then
      if (check_token_expiry env m1 (d.access_token.getD "")).1 then
        if validate_token_scopes env m1 d.access_token then
          let m2 := { m1 with accessToken := d.access_token,
                              userInfo := extract_user_info_opt env m1 d.access_token }
          (d.access_token, m2)
        else (none, m1)
      else (none, m1)
    else (none, m1)

/-- Model of `check_evergreen_token`: probe `~/.evergreen.yml` for
`oauth.token_file_path`, then that token file. The refresh token is adopted
via `refresh_token or self._refresh_token`, and only in the branches where an
access token was present (scope-invalid, valid, or expired). All read/parse
errors are caught, returning `None`. -/
def check_evergreen_token (env : Env) (m : OIDCAuthManager) :
    Option String × OIDCAuthManager :=
  match env.evergreenConfig with
  | .missing => (none, m)
  | .corrupt => (none, m)
  | .parsed tfp =>
    if !(pyTruthyStr tfp) then (none, m)
    else
      match env.fileAt (tfp.getD "") with
      | .missing => (none, m)
      | .corrupt => (none, m)
      | .parsed d =>
        if pyTruthyStr d.access_token then
          if (check_token_expiry env m (d.access_token.getD "")).1 then
            if validate_token_scopes env m d.access_token then
              let m1 := { m with accessToken := d.access_token,
                                 refreshToken := pyOrStr d.refresh_token m.refreshToken,
                                 userInfo := extract_user_info_opt env m d.access_token }
              (d.access_token, m1)
            else (none, { m with refreshToken := pyOrStr d.refresh_token m.refreshToken })
          else (none, { m with refreshToken := pyOrStr d.refresh_token m.refreshToken })
        else (none, m)

/-- Model of `refresh_token` (the async method): no-op without a refresh token; under
the refresh lock, first the double-check of an already-refreshed access
token; lazy endpoint initialization (whose discovery failure propagates);
then the POST. On HTTP 200 the new bundle is adopted
(`token_data.get("refresh_token", self._refresh_token)` keeps the old
refresh token only when the response omits one) and saved; a save `OSError`
is caught and yields `None` with the file unchanged. Any non-200 or
transport/JSON error yields `None`. -/
def refresh_token (env : Env) (m : OIDCAuthManager) :
    Except OidcError (Option String × OIDCAuthManager) :=
  if !(pyTruthyStr m.refreshToken) then .ok (none, m)
  else if pyTruthyStr m.accessToken
          && (check_token_expiry env m (m.accessToken.getD "")).1 then
    .ok (m.accessToken, m)
  else
    match (if pyTruthyStr m.tokenEndpoint then Except.ok m
           else initialize_endpoints env m) with
    | .error e => .error e
    | .ok m =>
      match env.refreshResp with
      | none => .ok (none, m)
      | some td =>
        if validate_token_scopes env m td.access_token then
          let m1 := { m with accessToken := td.access_token,
                             refreshToken := dictGetD td.refresh_token m.refreshToken }
          let m2 := { m1 with userInfo := extract_user_info_opt env m1 m1.accessToken }
          match save_token env m2 td with
          | none => .ok (none, m2)
          | some m3 => .ok (m3.accessToken, m3)
        else .ok (none, m)

/-- Terminal classification of the device-flow polling loop. `stillPending`
marks a run whose scripted responses were exhausted while the Python
`while True:` loop would still be polling. -/
inductive PollOutcome where
  | granted
  | denied
  | expired
  | errored
  | stillPending
  deriving DecidableEq, Repr

/-- Instrumented run of the polling loop: the method's return value, the
final state, and observations of the loop (number of POSTs issued, final
interval, number of `slow_down` increments, and the total slept time right
before each POST was issued). -/
structure PollRun where
  result : Option String
  state : OIDCAuthManager
  outcome : PollOutcome
  polls : Nat
  interval : Int
  slowDowns : Nat
  elapsedBeforePolls : List Int
  deriving DecidableEq, Repr

/-- Step 2 of `device_flow_auth`: `while True: await asyncio.sleep(interval);
POST device_code`. On HTTP 200 the bundle is adopted
(`self._refresh_token = token_data.get("refresh_token")`, plain `get`) and
saved (a raised save error is caught by the outer handler, returning `None`);
on an error body the loop dispatches solely on the `error` field —
`authorization_pending` continues, `slow_down` adds 2 seconds to the interval
and continues, `expired_token` returns `None`, anything else (including a
missing `error` field) returns `None`; an unparseable body or transport
error raises into the outer handler, returning `None`. The HTTP status of a
non-200 response is never inspected. -/
def pollLoop (env : Env) (m : OIDCAuthManager) (rs : List PollResp)
    (interval elapsed : Int) (polls slows : Nat) (log : List Int) : PollRun :=
  match rs with
  | [] => ⟨none, m, .stillPending, polls, interval, slows, log⟩
  | r :: rest =>
    let elapsed1 := elapsed + interval
    let polls1 := polls + 1
    let log1 := log ++ [elapsed1]
    match r with
    | .ok td =>
      if validate_token_scopes env m td.access_token then
        let m1 := { m with accessToken := td.access_token,
                           refreshToken := td.refresh_token }
        let m2 := { m1 with userInfo := extract_user_info_opt env m1 m1.accessToken }
        match save_token env m2 td with
        | none => ⟨none, m2, .errored, polls1, interval, slows, log1⟩
        | some m3 => ⟨m3.accessToken, m3, .granted, polls1, interval, slows, log1⟩
      else ⟨none, m, .denied, polls1, interval, slows, log1⟩
    | .errBody _status err =>
      if err == some "authorization_pending" then
        pollLoop env m rest interval elapsed1 polls1 slows log1
      else if err == some "slow_down" then
        pollLoop env m rest (interval + 2) elapsed1 polls1 (slows + 1) log1
      else if err == some "expired_token" then
        ⟨none, m, .expired, polls1, interval, slows, log1⟩
      else ⟨none, m, .denied, polls1, interval, slows, log1⟩
    | .badBody _status => ⟨none, m, .errored, polls1, interval, slows, log1⟩
    | .netError => ⟨none, m, .errored, polls1, interval, slows, log1⟩

/-- Model of `device_flow_auth`: lazy endpoint initialization (discovery failure
propagates — it happens before the method's `try`); the device-authorization
POST (`none` models a failed POST caught by the outer handlers, returning
`None`); then the poll loop with `interval = device_data.get("interval", 5)`.
The response's `expires_in` is never read. -/
def device_flow_auth (env : Env) (m : OIDCAuthManager) :
    Except OidcError (Option String × OIDCAuthManager) :=
  match (if pyTruthyStr m.deviceAuthEndpoint then Except.ok m
         else initialize_endpoints env m) with
  | .error e => .error e
  | .ok m =>
    match env.deviceAuthResp with
    | none => .ok (none, m)
    | some dd =>
      let run := pollLoop env m env.pollResponses (dd.interval.getD 5) 0 0 0 []
      .ok (run.result, run.state)

/-- Model of `ensure_authenticated`: under the auth lock — fast path on a still-valid
in-memory token; lazy endpoint/JWKS initialization (discovery failure
propagates); kanopy probe; evergreen probe; refresh if a refresh token is
known; finally device flow, returning `token is not None`. -/
def ensure_authenticated (env : Env) (m : OIDCAuthManager) :
    Except OidcError (Bool × OIDCAuthManager) :=
  if pyTruthyStr m.accessToken
     && (check_token_expiry env m (m.accessToken.getD "")).1 then
    .ok (true, m)
  else
    match (if m.jwksClient then Except.ok m else initialize_endpoints env m) with
    | .error e => .error e
    | .ok m =>
      let (tok, m) := check_kanopy_token env m
      if pyTruthyStr tok then .ok (true, m)
      else
        let (tok, m) := check_evergreen_token env m
        if pyTruthyStr tok then .ok (true, m)
        else
          match (if pyTruthyStr m.refreshToken then refresh_token env m
                 else Except.ok (none, m)) with
          | .error e => .error e
          | .ok (tok, m) =>
            if pyTruthyStr tok then .ok (true, m)
            else
              match device_flow_auth env m with
              | .error e => .error e
              | .ok (tok, m) => .ok (tok.isSome, m)

/-- Model of `is_authenticated`: non-blocking validity check of the in-memory token. -/
def is_authenticated (env : Env) (m : OIDCAuthManager) : Bool :=
  if !(pyTruthyStr m.accessToken) then false
  else (check_token_expiry env m (m.accessToken.getD "")).1

/-- First component of a non-raising method outcome (`none` if it raised). -/
def okFst {α β : Type} : Except OidcError (α × β) → Option α
  | .ok (a, _) => some a
  | .error _ => none

/-- Final state of a non-raising method outcome (`none` if it raised). -/
def okSnd {α β : Type} : Except OidcError (α × β) → Option β
  | .ok (_, b) => some b
  | .error _ => none

/-- Did the method return (rather than raise)? -/
def isOkE {α : Type} : Except OidcError α → Bool
  | .ok _ => true
  | .error _ => false

/-- Scope validation is advisory: every branch of `_validate_token_scopes`
returns `True`. -/
theorem validate_token_scopes_true (env : Env) (m : OIDCAuthManager)
    (t : Option String) : validate_token_scopes env m t = true := by
  unfold validate_token_scopes
  cases verify_and_decode_opt env m t with
  | none => rfl
  | some c =>
    cases hc : c.scope with
    | none => simp [hc]
    | some sv => cases sv <;> simp [hc]

/-- After `check_kanopy_token` parses the file, the stored refresh token is
exactly the file's `refresh_token` field, in every branch. -/
theorem check_kanopy_token_refresh (env : Env) (m : OIDCAuthManager)
    (d : TokenData) (hk : m.kanopyFile = .parsed d) :
    (check_kanopy_token env m).2.refreshToken = d.refresh_token := by
  simp only [check_kanopy_token, hk]
  repeat' split
  all_goals rfl

/-- Claim C4: with the token's claims decoding successfully, the 60-second
buffer is strictly exclusive — `exp = now + 60` is reported invalid (with 60
seconds remaining), `exp = now + 61` valid (61 remaining), and in general
`_check_token_expiry` reports valid iff `exp - now > 60`. -/
theorem c4_expiry_boundary (env : Env) (m : OIDCAuthManager) (t : String)
    (c : JwtClaims) (hjwks : m.jwksClient = true)
    (hdec : env.jwtVerify t = some c) :
    (c.exp = some (env.now + 60) → check_token_expiry env m t = (false, 60))
    ∧ (c.exp = some (env.now + 61) → check_token_expiry env m t = (true, 61))
    ∧ (check_token_expiry env m t).1 = decide (c.exp.getD 0 - env.now > 60) := by
  have hv : verify_and_decode_token env m t true = some c := by
    simp [verify_and_decode_token, hjwks, hdec]
  refine ⟨?_, ?_, ?_⟩
  · intro h
    have e : env.now + 60 - env.now = (60 : Int) := by ring
    simp [check_token_expiry, hv, h, e]
  · intro h
    have e : env.now + 61 - env.now = (61 : Int) := by ring
    simp [check_token_expiry, hv, h, e]
  · simp [check_token_expiry, hv]

/-- Environment for the C4 witness: a clock at 1000 and two tokens whose
verified claims carry `exp = 1060` and `exp = 1061`. -/
def envC4 : Env :=
  { now := 1000,
    jwtVerify := fun t =>
      if t == "t60" then some { exp := some 1060 }
      else if t == "t61" then some { exp := some 1061 } else none,
    jwtNoVerify := fun _ => none }

/-- Manager with an initialized JWKS client, for the C4 witness. -/
def mgrC4 : OIDCAuthManager := { jwksClient := true }

/-- Witness for C4 at concrete tokens expiring 60 and 61 seconds from now. -/
theorem c4_expiry_boundary_witness :
    check_token_expiry envC4 mgrC4 "t60" = (false, 60)
    ∧ check_token_expiry envC4 mgrC4 "t61" = (true, 61) :=
  ⟨(c4_expiry_boundary envC4 mgrC4 "t60" { exp := some 1060 } rfl (by decide)).1
      (by decide),
   (c4_expiry_boundary envC4 mgrC4 "t61" { exp := some 1061 } rfl (by decide)).2.1
      (by decide)⟩

/-- Environment for C3: the token `"tok"` is perfectly decodable without
signature verification, carrying a far-future expiry and an identity. -/
def envC3 : Env :=
  { now := 0,
    jwtVerify := fun _ => none,
    jwtNoVerify := fun t =>
      if t == "tok" then some { exp := some 1000, preferred_username := some "alice" }
      else none }

/-- Manager whose JWKS client is not initialized, for C3. -/
def mgrC3 : OIDCAuthManager := { jwksClient := false }

/-- Claim C3 counterexample: with no JWKS client, `"tok"` is decodable
(unverified) with `exp = 1000` (so 1000 seconds remain, well beyond the
buffer) and a username — yet `_verify_and_decode_token` returns `None`
without decoding, so `_check_token_expiry` reports `(False, 0)` rather than
the token's expiry and `_extract_user_info` returns the empty record rather
than the identity claims. -/
theorem c3_counterexample :
    envC3.jwtNoVerify "tok"
      = some { exp := some 1000, preferred_username := some "alice" }
    ∧ (1000 : Int) - envC3.now > 60
    ∧ verify_and_decode_token envC3 mgrC3 "tok" true = none
    ∧ check_token_expiry envC3 mgrC3 "tok" = (false, 0)
    ∧ extract_user_info envC3 mgrC3 "tok" = none := by
  refine ⟨by decide, by decide, rfl, rfl, rfl⟩

/-- Claim C3 amended: when the JWKS client is unavailable,
`_verify_and_decode_token` logs a warning and returns `None` without
decoding the token, so `_check_token_expiry` reports `(False, 0)` and
`_extract_user_info` returns the empty record, for every token. -/
theorem c3_no_jwks_no_decode (env : Env) (m : OIDCAuthManager) (t : String)
    (h : m.jwksClient = false) :
    verify_and_decode_token env m t true = none
    ∧ check_token_expiry env m t = (false, 0)
    ∧ extract_user_info env m t = none := by
  have hv : verify_and_decode_token env m t true = none := by
    simp [verify_and_decode_token, h]
  exact ⟨hv, by simp [check_token_expiry, hv], by simp [extract_user_info, hv]⟩

/-- Witness for the amended C3 at a concrete token. -/
theorem c3_no_jwks_no_decode_witness :
    verify_and_decode_token envC3 mgrC3 "other" true = none
    ∧ check_token_expiry envC3 mgrC3 "other" = (false, 0)
    ∧ extract_user_info envC3 mgrC3 "other" = none :=
  c3_no_jwks_no_decode envC3 mgrC3 "other" rfl

/-- Claim C2: on the scripted poll responses `[authorization_pending,
authorization_pending, slow_down, HTTP 200]` (for any HTTP statuses on the
error responses and any starting interval `i`), the loop polls exactly 4
times, performs exactly one `slow_down` increment — the fixed step 2, within
RFC 8628's 2–5 seconds, leaving the final interval at `i + 2` — and
terminates granted with the response's access token. -/
theorem c2_scripted_poll_run (env : Env) (m : OIDCAuthManager)
    (td : TokenData) (i : Int) (st1 st2 st3 : Nat)
    (hsave : env.saveRaises = false) :
    (pollLoop env m
      [PollResp.errBody st1 (some "authorization_pending"),
       PollResp.errBody st2 (some "authorization_pending"),
       PollResp.errBody st3 (some "slow_down"),
       PollResp.ok td] i 0 0 0 []).polls = 4
    ∧ (pollLoop env m
      [PollResp.errBody st1 (some "authorization_pending"),
       PollResp.errBody st2 (some "authorization_pending"),
       PollResp.errBody st3 (some "slow_down"),
       PollResp.ok td] i 0 0 0 []).slowDowns = 1
    ∧ (pollLoop env m
      [PollResp.errBody st1 (some "authorization_pending"),
       PollResp.errBody st2 (some "authorization_pending"),
       PollResp.errBody st3 (some "slow_down"),
       PollResp.ok td] i 0 0 0 []).interval = i + 2
    ∧ (pollLoop env m
      [PollResp.errBody st1 (some "authorization_pending"),
       PollResp.errBody st2 (some "authorization_pending"),
       PollResp.errBody st3 (some "slow_down"),
       PollResp.ok td] i 0 0 0 []).outcome = .granted
    ∧ (pollLoop env m
      [PollResp.errBody st1 (some "authorization_pending"),
       PollResp.errBody st2 (some "authorization_pending"),
       PollResp.errBody st3 (some "slow_down"),
       PollResp.ok td] i 0 0 0 []).result = td.access_token := by
  simp [pollLoop, validate_token_scopes_true, save_token, hsave]

/-- Environment for the C2 witness: the scripted responses with concrete
statuses, a granted token `"granted"` and a non-raising save. -/
def envC2 : Env :=
  { now := 0, jwtVerify := fun _ => none, jwtNoVerify := fun _ => none,
    saveRaises := false }

/-- Manager for the C2 witness. -/
def mgrC2 : OIDCAuthManager := {}

/-- Witness for C2: the concrete scripted run from interval 5. -/
theorem c2_scripted_poll_run_witness :
    (pollLoop envC2 mgrC2
      [PollResp.errBody 400 (some "authorization_pending"),
       PollResp.errBody 400 (some "authorization_pending"),
       PollResp.errBody 400 (some "slow_down"),
       PollResp.ok { access_token := some "granted" }] 5 0 0 0 []).polls = 4
    ∧ (pollLoop envC2 mgrC2
      [PollResp.errBody 400 (some "authorization_pending"),
       PollResp.errBody 400 (some "authorization_pending"),
       PollResp.errBody 400 (some "slow_down"),
       PollResp.ok { access_token := some "granted" }] 5 0 0 0 []).slowDowns = 1
    ∧ (pollLoop envC2 mgrC2
      [PollResp.errBody 400 (some "authorization_pending"),
       PollResp.errBody 400 (some "authorization_pending"),
       PollResp.errBody 400 (some "slow_down"),
       PollResp.ok { access_token := some "granted" }] 5 0 0 0 []).interval = 5 + 2
    ∧ (pollLoop envC2 mgrC2
      [PollResp.errBody 400 (some "authorization_pending"),
       PollResp.errBody 400 (some "authorization_pending"),
       PollResp.errBody 400 (some "slow_down"),
       PollResp.ok { access_token := some "granted" }] 5 0 0 0 []).outcome = .granted
    ∧ (pollLoop envC2 mgrC2
      [PollResp.errBody 400 (some "authorization_pending"),
       PollResp.errBody 400 (some "authorization_pending"),
       PollResp.errBody 400 (some "slow_down"),
       PollResp.ok { access_token := some "granted" }] 5 0 0 0 []).result
        = TokenData.access_token { access_token := some "granted" } :=
  c2_scripted_poll_run envC2 mgrC2 { access_token := some "granted" } 5 400 400 400 rfl

/-- Environment for C7: first poll response is HTTP 401 whose JSON body has
no `error` field; a success follows in the script. -/
def envC7 : Env :=
  { now := 0, jwtVerify := fun _ => none, jwtNoVerify := fun _ => none,
    pollResponses := [PollResp.errBody 401 none,
                      PollResp.ok { access_token := some "tok" }] }

/-- Manager for C7. -/
def mgrC7 : OIDCAuthManager := { deviceAuthEndpoint := some "dae",
                                 tokenEndpoint := some "te" }

/-- Claim C7 counterexample: a poll response with HTTP status 401 and no
structured `authorization_pending` error body is NOT treated as pending —
the loop terminates after this single poll with `None` (outcome DENIED)
instead of continuing to the success response that follows it. -/
theorem c7_counterexample :
    (pollLoop envC7 mgrC7 envC7.pollResponses 5 0 0 0 []).result = none
    ∧ (pollLoop envC7 mgrC7 envC7.pollResponses 5 0 0 0 []).outcome = .denied
    ∧ (pollLoop envC7 mgrC7 envC7.pollResponses 5 0 0 0 []).polls = 1 := by
  refine ⟨rfl, rfl, rfl⟩

/-- Claim C7 amended: the loop classifies a non-200 poll response solely by
its JSON `error` field, ignoring the HTTP status — a response (401 or
otherwise) whose body carries `error = authorization_pending` keeps the loop
in PENDING at the current interval, while a 401 without a structured error
body terminates the flow as a hard failure returning `None`. -/
theorem c7_pending_on_error_field_only (env : Env) (m : OIDCAuthManager)
    (status : Nat) (rest : List PollResp) (i el : Int) (p sl : Nat)
    (log : List Int) :
    pollLoop env m (PollResp.errBody status (some "authorization_pending") :: rest)
        i el p sl log
      = pollLoop env m rest i (el + i) (p + 1) sl (log ++ [el + i])
    ∧ (pollLoop env m [PollResp.errBody 401 none] i el p sl log).result = none
    ∧ (pollLoop env m [PollResp.errBody 401 none] i el p sl log).outcome = .denied := by
  refine ⟨rfl, rfl, rfl⟩

/-- The polling loop never consults the device-authorization response: its
run is unchanged under any replacement of `deviceAuthResp` in the oracle. -/
theorem pollLoop_deviceAuthResp_irrel (env : Env) (x y : Option DeviceData)
    (m : OIDCAuthManager) (rs : List PollResp) :
    ∀ (i el : Int) (p sl : Nat) (log : List Int),
    pollLoop { env with deviceAuthResp := x } m rs i el p sl log
      = pollLoop { env with deviceAuthResp := y } m rs i el p sl log := by
  induction rs with
  | nil => intro i el p sl log; rfl
  | cons r rest ih =>
    intro i el p sl log
    cases r with
    | ok td => rfl
    | badBody s => rfl
    | netError => rfl
    | errBody s err =>
      simp only [pollLoop]
      split
      · exact ih i (el + i) (p + 1) sl (log ++ [el + i])
      · split
        · exact ih (i + 2) (el + i) (p + 1) (sl + 1) (log ++ [el + i])
        · split
          · rfl
          · rfl

/-- Device-authorization response for C6: a 1-second `expires_in` budget. -/
def ddC6 : DeviceData :=
  { device_code := some "dc", interval := some 5, expires_in := some 1 }

/-- Environment for C6: the tiny budget above, then a pending response and a
success — by the first poll the loop has already slept 5 s > 1 s. -/
def envC6 : Env :=
  { now := 0, jwtVerify := fun _ => none, jwtNoVerify := fun _ => none,
    deviceAuthResp := some ddC6,
    pollResponses := [PollResp.errBody 400 (some "authorization_pending"),
                      PollResp.ok { access_token := some "tok" }] }

/-- Manager for C6 with endpoints already discovered. -/
def mgrC6 : OIDCAuthManager := { deviceAuthEndpoint := some "dae",
                                 tokenEndpoint := some "te" }

/-- Claim C6 counterexample: with `expires_in = 1`, every poll is issued
after elapsed sleep exceeding the budget (5 s, then 10 s, each > 1 s), yet
the flow keeps polling and terminates GRANTED with the token — it never
terminates as EXPIRED and never returns `None` on budget exhaustion, because
`device_flow_auth` never reads `expires_in` and tracks no deadline. -/
theorem c6_counterexample :
    envC6.deviceAuthResp = some ddC6
    ∧ ddC6.expires_in = some 1
    ∧ (pollLoop envC6 mgrC6 envC6.pollResponses 5 0 0 0 []).elapsedBeforePolls
        = [5, 10]
    ∧ (5 : Int) > 1
    ∧ (pollLoop envC6 mgrC6 envC6.pollResponses 5 0 0 0 []).outcome = .granted
    ∧ okFst (device_flow_auth envC6 mgrC6) = some (some "tok") := by
  refine ⟨rfl, rfl, rfl, by decide, rfl, rfl⟩

/-- Claim C6 amended: the poll loop performs no local deadline tracking —
the flow's outcome is unchanged under any replacement of the `expires_in`
value in the device-authorization response, and the loop terminates as
EXPIRED returning `None` upon (and only upon) a token-endpoint response
whose error code is `expired_token`. -/
theorem c6_no_local_deadline (env : Env) (m : OIDCAuthManager)
    (dd : DeviceData) (e1 e2 : Option Int) (st : Nat) (rest : List PollResp)
    (i el : Int) (p sl : Nat) (log : List Int) :
    device_flow_auth { env with deviceAuthResp := some { dd with expires_in := e1 } } m
      = device_flow_auth { env with deviceAuthResp := some { dd with expires_in := e2 } } m
    ∧ (pollLoop env m (PollResp.errBody st (some "expired_token") :: rest)
        i el p sl log).result = none
    ∧ (pollLoop env m (PollResp.errBody st (some "expired_token") :: rest)
        i el p sl log).outcome = .expired := by
  refine ⟨?_, rfl, rfl⟩
  unfold device_flow_auth
  have hinit : initialize_endpoints
        { env with deviceAuthResp := some { dd with expires_in := e1 } } m
      = initialize_endpoints
        { env with deviceAuthResp := some { dd with expires_in := e2 } } m := rfl
  rw [hinit]
  cases hX : (if pyTruthyStr m.deviceAuthEndpoint then Except.ok m
              else initialize_endpoints
                { env with deviceAuthResp := some { dd with expires_in := e2 } } m) with
  | error e => rfl
  | ok m1 =>
    show Except.ok
        ((pollLoop { env with deviceAuthResp := some { dd with expires_in := e1 } } m1
            env.pollResponses (dd.interval.getD 5) 0 0 0 []).result,
         (pollLoop { env with deviceAuthResp := some { dd with expires_in := e1 } } m1
            env.pollResponses (dd.interval.getD 5) 0 0 0 []).state)
      = Except.ok
        ((pollLoop { env with deviceAuthResp := some { dd with expires_in := e2 } } m1
            env.pollResponses (dd.interval.getD 5) 0 0 0 []).result,
         (pollLoop { env with deviceAuthResp := some { dd with expires_in := e2 } } m1
            env.pollResponses (dd.interval.getD 5) 0 0 0 []).state)
    rw [pollLoop_deviceAuthResp_irrel env (some { dd with expires_in := e1 })
        (some { dd with expires_in := e2 }) m1 env.pollResponses
        (dd.interval.getD 5) 0 0 0 []]

/-- Claim C10: after `check_kanopy_token` parses the kanopy file, the stored
refresh token equals exactly the file's `refresh_token` field (so `None`
when the field is absent, discarding any prior value), in every branch;
whereas `check_evergreen_token`, whose token file omits the field, retains
the previously stored refresh token. -/
theorem c10_refresh_adoption_asymmetry (env : Env) (m : OIDCAuthManager)
    (d d2 : TokenData) (p : String)
    (hk : m.kanopyFile = .parsed d)
    (hcfg : env.evergreenConfig = .parsed (some p))
    (hp : pyTruthyStr (some p) = true)
    (hfile : env.fileAt p = .parsed d2)
    (hrt : d2.refresh_token = none) :
    (check_kanopy_token env m).2.refreshToken = d.refresh_token
    ∧ (check_evergreen_token env m).2.refreshToken = m.refreshToken := by
  refine ⟨check_kanopy_token_refresh env m d hk, ?_⟩
  simp only [check_evergreen_token, hcfg, hp, hfile, hrt, Option.getD_some]
  repeat' split
  all_goals simp_all [pyOrStr, pyTruthyStr]

/-- Environment for the C10 witness: an evergreen token file without a
`refresh_token` field. -/
def envC10 : Env :=
  { now := 0, jwtVerify := fun _ => none, jwtNoVerify := fun _ => none,
    evergreenConfig := .parsed (some "/tok"),
    fileAt := fun pth =>
      if pth == "/tok" then .parsed { access_token := some "evat" }
      else .missing }

/-- Manager for the C10 witness: a prior refresh token and a kanopy file
carrying both fields. -/
def mgrC10 : OIDCAuthManager :=
  { refreshToken := some "prior",
    kanopyFile := .parsed { access_token := some "kat",
                            refresh_token := some "krt" } }

/-- Witness for C10: the kanopy probe overwrites `"prior"` with the file's
`"krt"`, while the evergreen probe (file without the field) retains it. -/
theorem c10_refresh_adoption_asymmetry_witness :
    (check_kanopy_token envC10 mgrC10).2.refreshToken = some "krt"
    ∧ (check_evergreen_token envC10 mgrC10).2.refreshToken = some "prior" :=
  c10_refresh_adoption_asymmetry envC10 mgrC10
    { access_token := some "kat", refresh_token := some "krt" }
    { access_token := some "evat" } "/tok" rfl rfl (by decide) (by decide) rfl

/-- Claim C9: a bundle written by `_save_token` and read back by the kanopy
probe yields the identical `access_token` and `refresh_token`: the saved
file holds exactly the written fields, the probe adopts exactly the written
`refresh_token`, and any access token the probe hands back is the written
one. -/
theorem c9_save_probe_round_trip (env : Env) (m m1 : OIDCAuthManager)
    (td : TokenData) (h : save_token env m td = some m1) :
    m1.kanopyFile = .parsed td
    ∧ (check_kanopy_token env m1).2.refreshToken = td.refresh_token
    ∧ ((check_kanopy_token env m1).1 = none
       ∨ (check_kanopy_token env m1).1 = td.access_token) := by
  have hk : m1.kanopyFile = .parsed td := by
    unfold save_token at h
    split at h
    · exact Option.noConfusion h
    · cases h; rfl
  refine ⟨hk, check_kanopy_token_refresh env m1 td hk, ?_⟩
  simp only [check_kanopy_token, hk]
  repeat' split
  all_goals simp

/-- Environment for the C9 witness. -/
def envC9 : Env := { now := 0, jwtVerify := fun _ => none,
                     jwtNoVerify := fun _ => none }

/-- Manager for the C9 witness. -/
def mgrC9 : OIDCAuthManager := {}

/-- Bundle written in the C9 witness. -/
def tdC9 : TokenData := { access_token := some "sat", refresh_token := some "srt" }

/-- Witness for C9: saving `tdC9` then probing reads back both fields. -/
theorem c9_save_probe_round_trip_witness :
    ({ mgrC9 with kanopyFile := FileState.parsed tdC9 } : OIDCAuthManager).kanopyFile
        = .parsed tdC9
    ∧ (check_kanopy_token envC9
        { mgrC9 with kanopyFile := FileState.parsed tdC9 }).2.refreshToken
        = tdC9.refresh_token
    ∧ ((check_kanopy_token envC9
        { mgrC9 with kanopyFile := FileState.parsed tdC9 }).1 = none
       ∨ (check_kanopy_token envC9
        { mgrC9 with kanopyFile := FileState.parsed tdC9 }).1 = tdC9.access_token) :=
  c9_save_probe_round_trip envC9 mgrC9
    { mgrC9 with kanopyFile := FileState.parsed tdC9 } tdC9 rfl

/-- Claim C1: when the kanopy file is absent and the evergreen probe finds a
token file whose access token's `exp` lies 600 s in the past but which
contains a refresh token, the probe rejects the access token yet stores the
refresh token on the manager state; the refresh engine, invoked on that
state, succeeds on the HTTP-200 token response (adopting its access token);
and `ensure_authenticated` returns `True`. The hypothesis
`env.deviceAuthResp = none` means a device-flow invocation could not have
produced a token, so the `True` outcome comes from the refresh engine, not
the device flow. -/
theorem c1_expired_probe_then_refresh (env : Env) (m : OIDCAuthManager)
    (p tk rt te nt : String) (c : JwtClaims) (td : TokenData)
    (hacc : m.accessToken = none)
    (hjwks : m.jwksClient = true)
    (hkan : m.kanopyFile = .missing)
    (hte : m.tokenEndpoint = some te) (hte2 : te ≠ "")
    (hcfg : env.evergreenConfig = .parsed (some p)) (hp2 : p ≠ "")
    (hfile : env.fileAt p
      = .parsed { access_token := some tk, refresh_token := some rt })
    (htk2 : tk ≠ "") (hrt2 : rt ≠ "")
    (hdec : env.jwtVerify tk = some c)
    (hexp : c.exp = some (env.now - 600))
    (hresp : env.refreshResp = some td)
    (hnew : td.access_token = some nt) (hnew2 : nt ≠ "")
    (hdev : env.deviceAuthResp = none)
    (hsave : env.saveRaises = false) :
    (check_evergreen_token env m).1 = none
    ∧ (check_evergreen_token env m).2.refreshToken = some rt
    ∧ okFst (refresh_token env ((check_evergreen_token env m).2))
        = some td.access_token
    ∧ okFst (ensure_authenticated env m) = some true := by
  have hnv : (check_token_expiry env m tk).1 = false := by
    simp [check_token_expiry, verify_and_decode_token, hjwks, hdec, hexp]
  have hev : check_evergreen_token env m
      = (none, { m with refreshToken := some rt }) := by
    simp [check_evergreen_token, hcfg, hfile, hp2, htk2, hrt2, hnv, pyOrStr,
          pyTruthyStr]
  have hrf0 : okFst (refresh_token env { m with refreshToken := some rt })
      = some (some nt) := by
    simp [refresh_token, pyTruthyStr, hrt2, hacc, hte, hte2, hresp,
          validate_token_scopes_true, save_token, hsave, hnew, okFst]
  obtain ⟨mf, hrf⟩ : ∃ mf, refresh_token env { m with refreshToken := some rt }
      = .ok (some nt, mf) := by
    cases hx : refresh_token env { m with refreshToken := some rt } with
    | error e => rw [hx] at hrf0; exact Option.noConfusion hrf0
    | ok pr =>
      obtain ⟨tok, mfx⟩ := pr
      rw [hx] at hrf0
      simp [okFst] at hrf0
      subst hrf0
      exact ⟨mfx, rfl⟩
  have hkan' : check_kanopy_token env m = (none, m) := by
    simp [check_kanopy_token, hkan]
  refine ⟨by rw [hev], by rw [hev], ?_, ?_⟩
  · rw [hev]
    simp [hrf, okFst, hnew]
  · simp only [ensure_authenticated, hacc, hjwks]
    simp only [pyTruthyStr, Bool.false_and, Bool.false_eq_true, if_false,
               if_true, hkan', hev, hrf]
    simp [pyTruthyStr, hrt2, hnew2, hrf, okFst]

/-- Environment for the C1 witness: clock at 10000; the evergreen token file
holds an access token with `exp = 9400` (expired 600 s ago) and refresh
token `"rtok"`; the token endpoint answers the refresh with HTTP 200 and a
new access token `"newtk"`; no device-authorization response is available. -/
def envC1 : Env :=
  { now := 10000,
    jwtVerify := fun t => if t == "oldtk" then some { exp := some 9400 } else none,
    jwtNoVerify := fun _ => none,
    evergreenConfig := .parsed (some "/ev"),
    fileAt := fun pth =>
      if pth == "/ev" then
        .parsed { access_token := some "oldtk", refresh_token := some "rtok" }
      else .missing,
    refreshResp := some { access_token := some "newtk",
                          refresh_token := some "rtok2" },
    deviceAuthResp := none,
    saveRaises := false }

/-- Manager for the C1 witness: endpoints discovered, no tokens in memory. -/
def mgrC1 : OIDCAuthManager := { jwksClient := true, tokenEndpoint := some "te" }

/-- Witness for C1 at the concrete scenario above. -/
theorem c1_expired_probe_then_refresh_witness :
    (check_evergreen_token envC1 mgrC1).1 = none
    ∧ (check_evergreen_token envC1 mgrC1).2.refreshToken = some "rtok"
    ∧ okFst (refresh_token envC1 ((check_evergreen_token envC1 mgrC1).2))
        = some (some "newtk")
    ∧ okFst (ensure_authenticated envC1 mgrC1) = some true :=
  c1_expired_probe_then_refresh envC1 mgrC1 "/ev" "oldtk" "rtok" "te" "newtk"
    { exp := some 9400 }
    { access_token := some "newtk", refresh_token := some "rtok2" }
    rfl rfl rfl rfl (by decide) rfl (by decide) (by decide) (by decide)
    (by decide) (by decide) (by decide) rfl rfl (by decide) rfl rfl

/-- With the discovery document available, `initialize_endpoints` returns. -/
theorem initialize_endpoints_isOk (env : Env) (m : OIDCAuthManager)
    (h : env.discovery.isSome = true) :
    isOkE (initialize_endpoints env m) = true := by
  obtain ⟨md, hd⟩ := Option.isSome_iff_exists.mp h
  simp [initialize_endpoints, hd, isOkE]

/-- With the discovery document available, `refresh_token` returns (all its
failure modes are caught and become `None`). -/
theorem refresh_token_isOk (env : Env) (m : OIDCAuthManager)
    (h : env.discovery.isSome = true) :
    isOkE (refresh_token env m) = true := by
  obtain ⟨md, hd⟩ := Option.isSome_iff_exists.mp h
  unfold refresh_token
  split
  · rfl
  · split
    · rfl
    · split
      · rename_i e heq
        exfalso
        split at heq
        · exact Except.noConfusion heq
        · simp [initialize_endpoints, hd] at heq
      · split
        · rfl
        · split
          · dsimp only
            split
            · rfl
            · rfl
          · rfl

/-- With the discovery document available, `device_flow_auth` returns. -/
theorem device_flow_auth_isOk (env : Env) (m : OIDCAuthManager)
    (h : env.discovery.isSome = true) :
    isOkE (device_flow_auth env m) = true := by
  obtain ⟨md, hd⟩ := Option.isSome_iff_exists.mp h
  unfold device_flow_auth
  split
  · rename_i e heq
    exfalso
    split at heq
    · exact Except.noConfusion heq
    · simp [initialize_endpoints, hd] at heq
  · split
    · rfl
    · rfl

/-- With the discovery document available, `ensure_authenticated` returns a
boolean — it never raises, whatever the probe/refresh/device outcomes. -/
theorem ensure_authenticated_isOk (env : Env) (m : OIDCAuthManager)
    (h : env.discovery.isSome = true) :
    isOkE (ensure_authenticated env m) = true := by
  obtain ⟨md, hd⟩ := Option.isSome_iff_exists.mp h
  unfold ensure_authenticated
  split
  · rfl
  · split
    · rename_i heq
      exfalso
      split at heq
      · exact Except.noConfusion heq
      · simp [initialize_endpoints, hd] at heq
    · rename_i m1 heq1
      split
      rename_i tok2 m2 hk2
      split
      · rfl
      · split
        rename_i tok3 m3 hk3
        split
        · rfl
        · split
          · rename_i e heq4
            exfalso
            split at heq4
            · have hro := refresh_token_isOk env m3 h
              rw [heq4] at hro
              simp [isOkE] at hro
            · exact Except.noConfusion heq4
          · rename_i tok4 m4 heq4
            split
            · rfl
            · split
              · rename_i e heq5
                exfalso
                have hdo := device_flow_auth_isOk env m4 h
                rw [heq5] at hdo
                simp [isOkE] at hdo
              · rfl

/-- Claim C5: `ensure_authenticated` never raises for an authentication
failure — whenever the discovery document is obtainable it returns a
boolean, and in an everything-fails state it returns `False` — while a
metadata-discovery failure propagates out as a raised error (here: when the
JWKS client is uninitialized and discovery fails, the call raises instead of
falling through to device flow). -/
theorem c5_false_on_failure_raise_on_discovery (env : Env)
    (m : OIDCAuthManager) :
    (env.discovery.isSome = true → isOkE (ensure_authenticated env m) = true)
    ∧ (m.jwksClient = false → env.discovery = none →
        ensure_authenticated env m = .error .discovery)
    ∧ (m.accessToken = none → m.jwksClient = true → m.kanopyFile = .missing →
        env.evergreenConfig = .missing → m.refreshToken = none →
        pyTruthyStr m.deviceAuthEndpoint = true → env.deviceAuthResp = none →
        ensure_authenticated env m = .ok (false, m)) := by
  refine ⟨ensure_authenticated_isOk env m, ?_, ?_⟩
  · intro hj hdisc
    have hche : ∀ t, (check_token_expiry env m t).1 = false := by
      intro t
      simp [check_token_expiry, verify_and_decode_token, hj]
    unfold ensure_authenticated
    simp [hche, hj, initialize_endpoints, hdisc]
  · intro h1 h2 h3 h4 h5 h6 h7
    have hnone : pyTruthyStr (none : Option String) = false := rfl
    unfold ensure_authenticated
    simp [h1, h2, h3, h4, h5, h6, h7, hnone, check_kanopy_token,
          check_evergreen_token, device_flow_auth]

/-- Environment with a reachable discovery document, for the C5 witness. -/
def envC5a : Env :=
  { now := 0, jwtVerify := fun _ => none, jwtNoVerify := fun _ => none,
    discovery := some {} }

/-- Environment with discovery failing, for the C5 witness. -/
def envC5b : Env :=
  { now := 0, jwtVerify := fun _ => none, jwtNoVerify := fun _ => none,
    discovery := none }

/-- Environment in which every authentication avenue fails, for the C5
witness. -/
def envC5c : Env :=
  { now := 0, jwtVerify := fun _ => none, jwtNoVerify := fun _ => none }

/-- Fresh manager for the C5 witness. -/
def mgrC5 : OIDCAuthManager := {}

/-- Manager with endpoints but no credentials, for the C5 witness. -/
def mgrC5c : OIDCAuthManager := { jwksClient := true,
                                  deviceAuthEndpoint := some "dae" }

/-- Witness for C5: returns on discovery success, raises on discovery
failure, and returns `False` when every authentication avenue fails. -/
theorem c5_false_on_failure_raise_on_discovery_witness :
    isOkE (ensure_authenticated envC5a mgrC5) = true
    ∧ ensure_authenticated envC5b mgrC5 = .error .discovery
    ∧ ensure_authenticated envC5c mgrC5c = .ok (false, mgrC5c) :=
  ⟨(c5_false_on_failure_raise_on_discovery envC5a mgrC5).1 rfl,
   (c5_false_on_failure_raise_on_discovery envC5b mgrC5).2.1 rfl rfl,
   (c5_false_on_failure_raise_on_discovery envC5c mgrC5c).2.2 rfl rfl rfl rfl
     rfl (by decide) rfl⟩
